import Mathlib

/-!
Shallow embedding of the game core of `lpa1-taller-videojuegos`
(files `src/juego/vector2d.py`, `figura.py`, `proyectil.py`, `jugador.py`,
`enemigo.py`, `control_juego.py`).

Modelling conventions:
* Python floats are modelled as real numbers (`ℝ`); Python ints as `ℤ`
  (screen sizes, radii, hit points, score, colour channels).
* The pygame surface held by every figure is reduced to its width and
  height, passed as explicit `(w h : ℤ)` parameters to the functions that
  read it; rendering is dropped.
* Methods that raise `ValueError` on `dt <= 0` are split into a total
  `…Core` function (the body after the guard) and an `Option`-returning
  wrapper that yields `none` exactly when the guard fires.
* The mouse position polled inside `Jugador._mover_hacia_mouse` and the
  two `random` draws inside `ControlJuego.respawnear_enemigo` are external
  inputs; they are threaded in as explicit parameters.
* Python object identity: `ControlJuego.enemigo` is a reference to an
  object that is also an element of the mutable list
  `ControlJuego.enemigos`.  Enemies carry a model-only field `id`
  (allocated from `ControlJuego.nextId`, hence unique), the list holds the
  object states, and the primary reference is stored as `enemigoId`; reads
  and writes through the reference go through lookup/update by `id`.  In
  every state reachable from `ControlJuego.inicial` the primary id occurs
  in the list; on the (unreachable) miss the lookup-based passes do
  nothing.
* `Enemigo.objetivo` in Python holds a reference to the player (or
  `None`).  The model keeps a `Bool` recording whether a target was
  assigned, and the caller passes the current state of the target figure
  (in the session this is always the session player) to the update
  functions.
-/

open Classical

/-- Python `Vector2D` (vector2d.py): a 2-D vector with float components. -/
structure Vector2D where
  x : ℝ
  y : ℝ

/-- Python `Vector2D.__add__`. -/
def Vector2D.add (a b : Vector2D) : Vector2D := ⟨a.x + b.x, a.y + b.y⟩

/-- Python `Vector2D.__sub__`. -/
def Vector2D.sub (a b : Vector2D) : Vector2D := ⟨a.x - b.x, a.y - b.y⟩

/-- Python `Vector2D.__mul__` (scalar multiplication). -/
def Vector2D.mulEscalar (a : Vector2D) (k : ℝ) : Vector2D := ⟨a.x * k, a.y * k⟩

/-- Python `Vector2D.magnitud`: `math.sqrt(x**2 + y**2)`. -/
noncomputable def Vector2D.magnitud (v : Vector2D) : ℝ :=
  Real.sqrt (v.x ^ 2 + v.y ^ 2)

/-- Python `Vector2D.normalizar`: divide by the magnitude when it is positive,
otherwise return the zero vector. -/
noncomputable def Vector2D.normalizar (v : Vector2D) : Vector2D :=
  if 0 < v.magnitud then ⟨v.x / v.magnitud, v.y / v.magnitud⟩ else ⟨0, 0⟩

/-- RGB colour triple (Python ints). -/
abbrev Color := ℤ × ℤ × ℤ

/-- Python `Figura` (figura.py): the base circular entity.  The `pantalla`
reference is dropped (its width/height are passed to the functions that
use them). -/
structure Figura where
  posicion : Vector2D
  color : Color
  radio : ℤ
  activo : Bool

/-- Python `Figura.colision`: both figures active and centre distance at most the
sum of the radii. -/
def Figura.colision (a otro : Figura) : Prop :=
  (a.activo = true ∧ otro.activo = true) ∧
    (a.posicion.sub otro.posicion).magnitud ≤ ((a.radio + otro.radio : ℤ) : ℝ)

/-- Python `Figura.mantener_en_pantalla`: clamp the position to
`[radio, w - radio] × [radio, h - radio]`. -/
noncomputable def Figura.mantenerEnPantalla (w h : ℤ) (f : Figura) : Figura :=
  let x1 := max ((f.radio : ℝ)) f.posicion.x
  let x2 := min (((w - f.radio : ℤ) : ℝ)) x1
  let y1 := max ((f.radio : ℝ)) f.posicion.y
  let y2 := min (((h - f.radio : ℤ) : ℝ)) y1
  { f with posicion := ⟨x2, y2⟩ }

/-- Python `int(x)` on a float: truncation toward zero. -/
noncomputable def pyInt (x : ℝ) : ℤ :=
  if 0 ≤ x then ⌊x⌋ else -⌊-x⌋

/-- Python `Proyectil` (proyectil.py): figure plus speed, direction and
remaining lifetime. -/
structure Proyectil where
  fig : Figura
  velocidad : ℝ
  direccion : Vector2D
  tiempo_vida : ℝ

/-- Python `Proyectil.__init__`: a yellow circle of radius 5 at `(x, y)`; the
direction argument is normalised once, `tiempo_vida` starts at 2.0 s.
(The `ValueError` on a non-positive speed is not modelled: the only call
site, `Jugador.disparar`, always passes the default 300.) -/
noncomputable def Proyectil.nuevo (x y : ℝ) (direccion : Vector2D)
    (velocidad : ℝ) : Proyectil :=
  ⟨⟨⟨x, y⟩, (255, 255, 0), 5, true⟩, velocidad, direccion.normalizar, 2⟩

/-- Python `Proyectil._verificar_desactivacion`: deactivate when outside the
screen expanded by the radius on every side, or when the lifetime is
spent. -/
noncomputable def Proyectil.verificarDesactivacion (w h : ℤ) (p : Proyectil) :
    Proyectil :=
  if p.fig.activo = true then
    let fuera :=
      p.fig.posicion.x < -(p.fig.radio : ℝ) ∨
      ((w + p.fig.radio : ℤ) : ℝ) < p.fig.posicion.x ∨
      p.fig.posicion.y < -(p.fig.radio : ℝ) ∨
      ((h + p.fig.radio : ℤ) : ℝ) < p.fig.posicion.y
    let agotado := p.tiempo_vida ≤ 0
    if fuera ∨ agotado then { p with fig := { p.fig with activo := false } }
    else p
  else p

/-- Body of `Proyectil.actualizar` after the `dt <= 0` guard: move along
the direction, spend lifetime, then check deactivation. -/
noncomputable def Proyectil.actualizarCore (w h : ℤ) (p : Proyectil)
    (dt : ℝ) : Proyectil :=
  if p.fig.activo = true then
    let p1 := { p with
      fig := { p.fig with
        posicion := p.fig.posicion.add (p.direccion.mulEscalar (p.velocidad * dt)) },
      tiempo_vida := p.tiempo_vida - dt }
    Proyectil.verificarDesactivacion w h p1
  else p

/-- Python `Proyectil.actualizar`: raises (`none`) on `dt <= 0`. -/
noncomputable def Proyectil.actualizar (w h : ℤ) (p : Proyectil) (dt : ℝ) :
    Option Proyectil :=
  if dt ≤ 0 then none else some (Proyectil.actualizarCore w h p dt)

/-- Python `Jugador` (jugador.py): figure plus movement smoothing, shot timer and
cooldown, and the owned projectile list. -/
structure Jugador where
  fig : Figura
  velocidad_movimiento : ℝ
  ultimo_disparo : ℝ
  cooldown_disparo : ℝ
  proyectiles : List Proyectil

/-- Python `Jugador.__init__`: radius-20 figure, smoothing 0.1, shot timer 0.0,
cooldown 0.3 s, no projectiles. -/
def Jugador.nuevo (x y : ℝ) (color : Color) : Jugador :=
  ⟨⟨⟨x, y⟩, color, 20, true⟩, 0.1, 0, 0.3, []⟩

/-- Python `Jugador._mover_hacia_mouse`: linear interpolation toward the polled
mouse position. -/
def Jugador.moverHaciaMouse (posMouse : Vector2D) (j : Jugador) : Jugador :=
  { j with fig := { j.fig with
      posicion := j.fig.posicion.add
        ((posMouse.sub j.fig.posicion).mulEscalar j.velocidad_movimiento) } }

/-- Python `Jugador._actualizar_proyectiles`: update every projectile with the
same `dt`, then drop the ones that became inactive. -/
noncomputable def Jugador.actualizarProyectiles (w h : ℤ) (j : Jugador)
    (dt : ℝ) : Jugador :=
  let ps := (j.proyectiles.map (fun p => Proyectil.actualizarCore w h p dt)).filter (fun p => p.fig.activo)
  { j with proyectiles := ps }

/-- Body of `Jugador.actualizar` after the `dt <= 0` guard: if active,
move toward the mouse, clamp to the screen, advance the shot timer, and
update the projectiles. -/
noncomputable def Jugador.actualizarCore (w h : ℤ) (posMouse : Vector2D)
    (j : Jugador) (dt : ℝ) : Jugador :=
  if j.fig.activo = true then
    let j1 := Jugador.moverHaciaMouse posMouse j
    let j2 := { j1 with fig := Figura.mantenerEnPantalla w h j1.fig }
    let j3 := { j2 with ultimo_disparo := j2.ultimo_disparo + dt }
    Jugador.actualizarProyectiles w h j3 dt
  else j

/-- Python `Jugador.actualizar`: raises (`none`) on `dt <= 0`. -/
noncomputable def Jugador.actualizar (w h : ℤ) (posMouse : Vector2D)
    (j : Jugador) (dt : ℝ) : Option Jugador :=
  if dt ≤ 0 then none else some (Jugador.actualizarCore w h posMouse j dt)

/-- Python `Jugador.disparar`: on cooldown return `False` unchanged, otherwise
append one projectile aimed from the current position at the target and
reset the shot timer.  (The `TypeError` on a malformed target tuple is
ruled out by typing.) -/
noncomputable def Jugador.disparar (j : Jugador) (objetivoPos : ℝ × ℝ) :
    Bool × Jugador :=
  if j.ultimo_disparo < j.cooldown_disparo then (false, j)
  else
    let direccion : Vector2D :=
      ⟨objetivoPos.1 - j.fig.posicion.x, objetivoPos.2 - j.fig.posicion.y⟩
    let proyectil :=
      Proyectil.nuevo j.fig.posicion.x j.fig.posicion.y direccion 300
    (true, { j with proyectiles := j.proyectiles ++ [proyectil],
                    ultimo_disparo := 0 })

/-- Python `Enemigo` (enemigo.py): figure plus speed, target flag, hit points,
invulnerability timer and base colour.  `id` is the model of Python
object identity (see the header comment); `objetivo` records whether
`establecer_objetivo` was called.  The dead `rect`/`update` code (lines
96-99 and 124-128, exercised by nothing in the game loop) is not
modelled. -/
structure Enemigo where
  id : ℕ
  fig : Figura
  velocidad : ℝ
  objetivo : Bool
  vida : ℤ
  vida_maxima : ℤ
  tiempo_invulnerable : ℝ
  color_original : Color

/-- Python `Enemigo.__init__`: speed 100 px/s, no target, 3/3 hit points, not
invulnerable, base colour remembered. -/
def Enemigo.nuevo (i : ℕ) (x y : ℝ) (color : Color) (radio : ℤ) : Enemigo :=
  ⟨i, ⟨⟨x, y⟩, color, radio, true⟩, 100, false, 3, 3, 0, color⟩

/-- Python `Enemigo.establecer_objetivo` (the target is the session player). -/
def Enemigo.establecerObjetivo (e : Enemigo) : Enemigo :=
  { e with objetivo := true }

/-- Python `Enemigo._actualizar_invulnerabilidad`: while invulnerable, spend the
timer by `dt` (no clamping) and blink the colour at rate
`int(t*10) % 2`; otherwise recompute the damage tint from the missing
hit points. -/
noncomputable def Enemigo.actualizarInvulnerabilidad (e : Enemigo) (dt : ℝ) :
    Enemigo :=
  if 0 < e.tiempo_invulnerable then
    let t := e.tiempo_invulnerable - dt
    let c : Color :=
      if pyInt (t * 10) % 2 = 0 then
        (min 255 (e.color_original.1 + 100),
         min 255 (e.color_original.2.1 + 100),
         min 255 (e.color_original.2.2 + 100))
      else e.color_original
    { e with tiempo_invulnerable := t, fig := { e.fig with color := c } }
  else
    { e with fig := { e.fig with color :=
        (max 0 (e.color_original.1 - (3 - e.vida) * 75),
         max 0 (e.color_original.2.1 - (3 - e.vida) * 75),
         max 0 (e.color_original.2.2 - (3 - e.vida) * 75)) } }

/-- Python `Enemigo._perseguir_objetivo`: if a target is assigned and active,
move `velocidad * dt` along the normalised direction toward it.
`objFig` is the current state of the assigned target (the session
player). -/
noncomputable def Enemigo.perseguirObjetivo (objFig : Figura) (e : Enemigo)
    (dt : ℝ) : Enemigo :=
  if e.objetivo = true ∧ objFig.activo = true then
    let direccion := objFig.posicion.sub e.fig.posicion
    if 0 < direccion.magnitud then
      { e with fig := { e.fig with
          posicion := e.fig.posicion.add
            ((direccion.normalizar).mulEscalar (e.velocidad * dt)) } }
    else e
  else e

/-- Body of `Enemigo.actualizar` after the `dt <= 0` guard: if active,
update invulnerability, pursue the target, clamp to the screen. -/
noncomputable def Enemigo.actualizarCore (w h : ℤ) (objFig : Figura)
    (e : Enemigo) (dt : ℝ) : Enemigo :=
  if e.fig.activo = true then
    let e1 := Enemigo.actualizarInvulnerabilidad e dt
    let e2 := Enemigo.perseguirObjetivo objFig e1 dt
    { e2 with fig := Figura.mantenerEnPantalla w h e2.fig }
  else e

/-- Python `Enemigo.actualizar`: raises (`none`) on `dt <= 0`. -/
noncomputable def Enemigo.actualizar (w h : ℤ) (objFig : Figura)
    (e : Enemigo) (dt : ℝ) : Option Enemigo :=
  if dt ≤ 0 then none else some (Enemigo.actualizarCore w h objFig e dt)

/-- Python `Enemigo.recibir_dano`: no-op returning `False` while invulnerable;
otherwise lose one hit point, become invulnerable for 0.5 s, deactivate
and clamp at 0 hit points on the killing hit, and return `True`. -/
noncomputable def Enemigo.recibirDano (e : Enemigo) : Bool × Enemigo :=
  if e.tiempo_invulnerable ≤ 0 then
    if e.vida - 1 ≤ 0 then
      (true, { e with
        vida := 0
        tiempo_invulnerable := (0.5 : ℝ)
        fig := { e.fig with activo := false } })
    else
      (true, { e with
        vida := e.vida - 1
        tiempo_invulnerable := (0.5 : ℝ) })
  else (false, e)

/-- Python `ControlJuego` (control_juego.py): score, player, enemy list, primary
enemy reference (`enemigoId`), spawn accumulators, session flag and the
player-damage cooldown.  `ancho`/`alto` are the screen size held by
`self.pantalla`; `nextId` is the model-only id supply. -/
structure ControlJuego where
  ancho : ℤ
  alto : ℤ
  puntos : ℤ
  jugador : Jugador
  enemigos : List Enemigo
  enemigoId : ℕ
  tiempo_enemigo : ℝ
  intervalo_enemigo : ℝ
  jugando : Bool
  tiempo_desde_ultimo_dano : ℝ
  cooldown_dano : ℝ
  nextId : ℕ

/-- Lookup of the primary-enemy reference inside the enemy list. -/
def buscarEnemigo (ens : List Enemigo) (i : ℕ) : Option Enemigo :=
  ens.find? (fun e => e.id == i)

/-- Write through the primary-enemy reference: replace the list element
with that id (ids are unique, see the header comment). -/
def reemplazarEnemigo (ens : List Enemigo) (i : ℕ) (e' : Enemigo) :
    List Enemigo :=
  ens.map (fun e => if e.id = i then e' else e)

/-- One iteration of `ControlJuego._verificar_colisiones_proyectiles`:
if the projectile collides with the primary enemy, damage it (score +2 on
success) and deactivate the projectile. -/
noncomputable def verColProy1 (primId : ℕ) (st : ℤ × List Enemigo)
    (p : Proyectil) : (ℤ × List Enemigo) × Proyectil :=
  match buscarEnemigo st.2 primId with
  | some prim =>
    if Figura.colision p.fig prim.fig then
      let r := Enemigo.recibirDano prim
      let puntos' := if r.1 then st.1 + 2 else st.1
      ((puntos', reemplazarEnemigo st.2 primId r.2),
       { p with fig := { p.fig with activo := false } })
    else (st, p)
  | none => (st, p)

/-- Python `ControlJuego._verificar_colisiones_proyectiles`: fold of
`verColProy1` over (a copy of) the projectile list, mutating score,
primary enemy and projectiles in place. -/
noncomputable def verColProyLista (primId : ℕ) :
    (ℤ × List Enemigo) → List Proyectil → (ℤ × List Enemigo) × List Proyectil
  | st, [] => (st, [])
  | st, p :: ps =>
    let r1 := verColProy1 primId st p
    let r2 := verColProyLista primId r1.1 ps
    (r2.1, r1.2 :: r2.2)

/-- Inner loop of the projectile pass inlined in `ControlJuego.actualizar`
(lines 164-168): for each enemy, check the collision and possibly damage
it, then set `proyectil.activo = False` UNCONDITIONALLY (the assignment
sits inside the enemy loop but outside the collision check). -/
noncomputable def colisionProyEnemigos :
    (ℤ × Proyectil) → List Enemigo → (ℤ × Proyectil) × List Enemigo
  | st, [] => (st, [])
  | (puntos, p), e :: es =>
    let r1 : ℤ × Enemigo :=
      if Figura.colision p.fig e.fig then
        let r := Enemigo.recibirDano e
        (if r.1 then puntos + 2 else puntos, r.2)
      else (puntos, e)
    let p1 := { p with fig := { p.fig with activo := false } }
    let r2 := colisionProyEnemigos (r1.1, p1) es
    (r2.1, r1.2 :: r2.2)

/-- Outer loop of the inlined projectile pass (line 163): iterate over a
copy of the projectile list, threading score and the enemy list. -/
noncomputable def colisionProyLista :
    (ℤ × List Enemigo) → List Proyectil → (ℤ × List Enemigo) × List Proyectil
  | st, [] => (st, [])
  | (puntos, ens), p :: ps =>
    let r1 := colisionProyEnemigos (puntos, p) ens
    let r2 := colisionProyLista (r1.1.1, r1.2) ps
    (r2.1, r1.1.2 :: r2.2)

/-- Python `ControlJuego._verificar_colision_jugador_enemigo`: if the player
collides with the primary enemy and the damage cooldown has elapsed,
subtract 2 points and reset the cooldown timer. -/
noncomputable def verColJugadorEnemigo (jugFig : Figura)
    (prim? : Option Enemigo) (cd : ℝ) (puntos : ℤ) (t : ℝ) : ℤ × ℝ :=
  match prim? with
  | some prim =>
    if Figura.colision jugFig prim.fig ∧ cd ≤ t then (puntos - 2, 0)
    else (puntos, t)
  | none => (puntos, t)

/-- Player-enemy loop inlined in `ControlJuego.actualizar` (lines
172-177): same check against every enemy in the list. -/
noncomputable def colisionJugadorEnemigos (jugFig : Figura) (cd : ℝ) :
    ℤ × ℝ → List Enemigo → ℤ × ℝ
  | st, [] => st
  | (puntos, t), e :: es =>
    let st1 : ℤ × ℝ :=
      if Figura.colision jugFig e.fig ∧ cd ≤ t then (puntos - 2, 0)
      else (puntos, t)
    colisionJugadorEnemigos jugFig cd st1 es

/-- Python `ControlJuego.respawnear_enemigo`: append a fresh red enemy targeting
the player at the supplied (random) position and radius, and make it the
new primary. -/
def ControlJuego.respawnearEnemigo (x y : ℝ) (radio : ℤ)
    (s : ControlJuego) : ControlJuego :=
  let nuevo := Enemigo.establecerObjetivo
    (Enemigo.nuevo s.nextId x y (255, 0, 0) radio)
  { s with enemigos := s.enemigos ++ [nuevo], enemigoId := s.nextId,
           nextId := s.nextId + 1 }

/-- Step 2 of `ControlJuego.actualizar` (lines 157-159): update every
active enemy; each of them targets the session player. -/
noncomputable def ControlJuego.enemigosActualizados (s : ControlJuego)
    (dt : ℝ) : List Enemigo :=
  s.enemigos.map (fun e =>
    if e.fig.activo = true then
      Enemigo.actualizarCore s.ancho s.alto s.jugador.fig e dt
    else e)

/-- Step 3 of `ControlJuego.actualizar` (lines 162-168): the helper pass
against the primary enemy followed by the inlined loop over all enemies,
applied to the state produced by the enemy updates. -/
noncomputable def ControlJuego.pasoProyectiles (s : ControlJuego) (dt : ℝ) :
    (ℤ × List Enemigo) × List Proyectil :=
  let r3a := verColProyLista s.enemigoId (s.puntos, s.enemigosActualizados dt)
    s.jugador.proyectiles
  colisionProyLista r3a.1 r3a.2

/-- Steps 1-4 of `ControlJuego.actualizar` (lines 153-177): cooldown
accumulation, enemy updates, both projectile passes and both
player-enemy passes. -/
noncomputable def ControlJuego.trasColisiones (s : ControlJuego) (dt : ℝ) :
    ControlJuego :=
  let t1 := s.tiempo_desde_ultimo_dano + dt
  let r3b := ControlJuego.pasoProyectiles s dt
  let r4a := verColJugadorEnemigo s.jugador.fig
    (buscarEnemigo r3b.1.2 s.enemigoId) s.cooldown_dano r3b.1.1 t1
  let r4b := colisionJugadorEnemigos s.jugador.fig s.cooldown_dano r4a r3b.1.2
  { s with
    puntos := r4b.1
    tiempo_desde_ultimo_dano := r4b.2
    enemigos := r3b.1.2
    jugador := { s.jugador with proyectiles := r3b.2 } }

/-- Step 5 of `ControlJuego.actualizar` (lines 180-181): respawn when
the primary enemy died. -/
noncomputable def ControlJuego.paso5 (spawnA : (ℝ × ℝ) × ℤ)
    (s4 : ControlJuego) : ControlJuego :=
  match buscarEnemigo s4.enemigos s4.enemigoId with
  | some prim =>
    if prim.fig.activo = true then s4
    else ControlJuego.respawnearEnemigo spawnA.1.1 spawnA.1.2 spawnA.2 s4
  | none => s4

/-- Step 6 of `ControlJuego.actualizar` (lines 184-186): end the session
and clamp the score when the points are spent. -/
noncomputable def ControlJuego.paso6 (s5 : ControlJuego) : ControlJuego :=
  if s5.puntos ≤ 0 then { s5 with jugando := false, puntos := 0 } else s5

/-- Step 7 of `ControlJuego.actualizar` (line 189): purge inactive
enemies. -/
def ControlJuego.paso7 (s6 : ControlJuego) : ControlJuego :=
  { s6 with enemigos := s6.enemigos.filter (fun e => e.fig.activo) }

/-- Step 8 of `ControlJuego.actualizar` (lines 191-194): accumulate the
spawn timer and spawn an extra enemy each time the 5 s interval elapses
(the timer update `s8` is substituted into its two uses). -/
noncomputable def ControlJuego.paso8 (spawnB : (ℝ × ℝ) × ℤ)
    (s7 : ControlJuego) (dt : ℝ) : ControlJuego :=
  if s7.intervalo_enemigo ≤ s7.tiempo_enemigo + dt then
    { ControlJuego.respawnearEnemigo spawnB.1.1 spawnB.1.2 spawnB.2
        { s7 with tiempo_enemigo := s7.tiempo_enemigo + dt } with
      tiempo_enemigo := 0 }
  else { s7 with tiempo_enemigo := s7.tiempo_enemigo + dt }

/-- Steps 5-8 of `ControlJuego.actualizar` (lines 179-194). -/
noncomputable def ControlJuego.pasoFinal (spawnA spawnB : (ℝ × ℝ) × ℤ)
    (s4 : ControlJuego) (dt : ℝ) : ControlJuego :=
  ControlJuego.paso8 spawnB
    (ControlJuego.paso7 (ControlJuego.paso6 (ControlJuego.paso5 spawnA s4))) dt

/-- Body of `ControlJuego.actualizar` after the `dt <= 0` and
`not jugando` guards.  `spawnA`/`spawnB` are the random draws consumed by
the (up to two) respawn calls, in order. -/
noncomputable def ControlJuego.actualizarCore (spawnA spawnB : (ℝ × ℝ) × ℤ)
    (s : ControlJuego) (dt : ℝ) : ControlJuego :=
  ControlJuego.pasoFinal spawnA spawnB (ControlJuego.trasColisiones s dt) dt

/-- Python `ControlJuego.actualizar`: raises (`none`) on `dt <= 0`, and is a
complete no-op when the session has ended. -/
noncomputable def ControlJuego.actualizar (spawnA spawnB : (ℝ × ℝ) × ℤ)
    (s : ControlJuego) (dt : ℝ) : Option ControlJuego :=
  if dt ≤ 0 then none
  else some (if s.jugando = true then
    ControlJuego.actualizarCore spawnA spawnB s dt
  else s)

/-- Python `ControlJuego.__init__` followed by `inicializar_juego`: score 10,
green player at `(w//4, h//2)`, one red primary enemy at `(w//2, h//4)`
targeting the player, 5 s spawn interval, 1 s damage cooldown. -/
def ControlJuego.inicial (w h : ℤ) : ControlJuego :=
  let jugador := Jugador.nuevo ((w / 4 : ℤ) : ℝ) ((h / 2 : ℤ) : ℝ) (0, 255, 0)
  let enemigoInicial := Enemigo.establecerObjetivo
    (Enemigo.nuevo 0 ((w / 2 : ℤ) : ℝ) ((h / 4 : ℤ) : ℝ) (255, 0, 0) 20)
  { ancho := w, alto := h, puntos := 10, jugador := jugador,
    enemigos := [enemigoInicial], enemigoId := 0, tiempo_enemigo := 0,
    intervalo_enemigo := 5, jugando := true, tiempo_desde_ultimo_dano := 0,
    cooldown_dano := 1, nextId := 1 }

/-- One call against an enemy: a `recibir_dano` call or (the body of) a
per-frame `actualizar` call. -/
inductive EnemigoEvento where
  | dano : EnemigoEvento
  | paso (w h : ℤ) (objFig : Figura) (dt : ℝ) : EnemigoEvento

/-- Run a sequence of calls against one enemy. -/
noncomputable def Enemigo.correr : Enemigo → List EnemigoEvento → Enemigo
  | e, [] => e
  | e, EnemigoEvento.dano :: evs => Enemigo.correr (Enemigo.recibirDano e).2 evs
  | e, EnemigoEvento.paso w h o dt :: evs =>
      Enemigo.correr (Enemigo.actualizarCore w h o e dt) evs

/-- The hit-point invariant of an enemy: `vida ∈ [0, vida_maxima]` and
zero hit points force inactivity. -/
def Enemigo.invariante (e : Enemigo) : Prop :=
  0 ≤ e.vida ∧ e.vida ≤ e.vida_maxima ∧ (e.vida = 0 → e.fig.activo = false)

/-- One call against a player: (the body of) a per-frame `actualizar`
call with the polled mouse position, or a `disparar` attempt. -/
inductive JugadorEvento where
  | paso (posMouse : Vector2D) (dt : ℝ) : JugadorEvento
  | disparo (objetivo : ℝ × ℝ) : JugadorEvento

/-- Run a sequence of calls against one player on a `w × h` screen,
counting the `disparar` attempts that returned `True`. -/
noncomputable def Jugador.correr (w h : ℤ) :
    Jugador → ℕ → List JugadorEvento → Jugador × ℕ
  | j, n, [] => (j, n)
  | j, n, JugadorEvento.paso m dt :: evs =>
      Jugador.correr w h (Jugador.actualizarCore w h m j dt) n evs
  | j, n, JugadorEvento.disparo t :: evs =>
      let r := Jugador.disparar j t
      Jugador.correr w h r.2 (if r.1 then n + 1 else n) evs

/-- Total update time of a sequence of player calls. -/
def sumaDt : List JugadorEvento → ℝ
  | [] => 0
  | JugadorEvento.paso _ dt :: evs => dt + sumaDt evs
  | JugadorEvento.disparo _ :: evs => sumaDt evs

/-- Every update step in the sequence has a positive `dt` (a
non-positive one raises `ValueError` in the source). -/
def dtsPositivos : List JugadorEvento → Prop
  | [] => True
  | JugadorEvento.paso _ dt :: evs => 0 < dt ∧ dtsPositivos evs
  | JugadorEvento.disparo _ :: evs => dtsPositivos evs

/-- A player whose shot timer has outrun the cooldown (for example after
one second of updates). -/
def jugadorListo : Jugador :=
  { Jugador.nuevo 100 100 (0, 255, 0) with ultimo_disparo := 1 }

/-- An enemy that was just hit: 0.5 s of invulnerability remaining. -/
def enemigoGolpeado : Enemigo :=
  { Enemigo.nuevo 1 100 100 (255, 0, 0) 20 with tiempo_invulnerable := 0.5 }

/-- An active projectile far away from the initial enemy (centre
distance well above the radius sum). -/
def proyectilAislado : Proyectil :=
  ⟨⟨⟨30, 30⟩, (255, 255, 0), 5, true⟩, 300, ⟨1, 0⟩, 2⟩

/-- The fresh 800 × 600 session with that single projectile handed to
the player. -/
def sesionConProyectil : ControlJuego :=
  { ControlJuego.inicial 800 600 with jugador :=
      { (ControlJuego.inicial 800 600).jugador with
        proyectiles := [proyectilAislado] } }

/-! ### Helper lemmas -/

/-- The distance between two points does not depend on their order. -/
theorem Vector2D.magnitud_sub_comm (a b : Vector2D) :
    (a.sub b).magnitud = (b.sub a).magnitud := by
  simp only [Vector2D.sub, Vector2D.magnitud]
  congr 1
  ring

/-- A nonzero vector has positive magnitude. -/
theorem Vector2D.magnitud_pos (v : Vector2D) (hv : ¬ (v.x = 0 ∧ v.y = 0)) :
    0 < v.magnitud := by
  have hne : v.x ≠ 0 ∨ v.y ≠ 0 := by tauto
  have hpos : 0 < v.x ^ 2 + v.y ^ 2 := by
    rcases hne with hx | hy
    · have := pow_two_pos_of_ne_zero hx
      nlinarith [sq_nonneg v.y]
    · have := pow_two_pos_of_ne_zero hy
      nlinarith [sq_nonneg v.x]
  exact Real.sqrt_pos.mpr hpos

/-! ### C8 -/

/-- C8: `Figura.colision` is symmetric; it holds exactly when both
figures are active and the centre distance is at most the sum of the
radii, boundary inclusive (two radius-20 circles at centre distance 40
collide, at 40.01 they do not); an inactive figure collides with
nothing, itself included. -/
theorem colision_contrato :
    (∀ a b : Figura, Figura.colision a b ↔ Figura.colision b a) ∧
    (∀ a b : Figura, Figura.colision a b ↔
      ((a.activo = true ∧ b.activo = true) ∧
        (a.posicion.sub b.posicion).magnitud ≤ ((a.radio + b.radio : ℤ) : ℝ))) ∧
    (∀ a b : Figura, a.activo = false →
      ¬ Figura.colision a b ∧ ¬ Figura.colision b a ∧ ¬ Figura.colision a a) ∧
    Figura.colision ⟨⟨0, 0⟩, (0, 0, 0), 20, true⟩ ⟨⟨40, 0⟩, (0, 0, 0), 20, true⟩ ∧
    ¬ Figura.colision ⟨⟨0, 0⟩, (0, 0, 0), 20, true⟩
      ⟨⟨40.01, 0⟩, (0, 0, 0), 20, true⟩ := by
  have hsub40 : ((Vector2D.mk 0 0).sub ⟨40, 0⟩).magnitud = 40 := by
    simp only [Vector2D.sub, Vector2D.magnitud]
    rw [show ((0 : ℝ) - 40) ^ 2 + ((0 : ℝ) - 0) ^ 2 = 40 ^ 2 by norm_num]
    rw [Real.sqrt_sq (by norm_num : (0 : ℝ) ≤ 40)]
  have hsub4001 : ((Vector2D.mk 0 0).sub ⟨40.01, 0⟩).magnitud = 40.01 := by
    simp only [Vector2D.sub, Vector2D.magnitud]
    rw [show ((0 : ℝ) - 40.01) ^ 2 + ((0 : ℝ) - 0) ^ 2 = 40.01 ^ 2 by norm_num]
    rw [Real.sqrt_sq (by norm_num : (0 : ℝ) ≤ 40.01)]
  refine ⟨?_, ?_, ?_, ?_, ?_⟩
  · intro a b
    unfold Figura.colision
    rw [Vector2D.magnitud_sub_comm]
    constructor <;> rintro ⟨⟨h1, h2⟩, h3⟩ <;>
      exact ⟨⟨h2, h1⟩, by rwa [add_comm] at h3⟩
  · intro a b
    exact Iff.rfl
  · intro a b h
    refine ⟨?_, ?_, ?_⟩ <;> rintro ⟨⟨h1, h2⟩, -⟩ <;> simp_all
  · refine ⟨⟨rfl, rfl⟩, ?_⟩
    rw [hsub40]
    norm_num
  · rintro ⟨-, h⟩
    rw [hsub4001] at h
    norm_num at h

/-- C8 witness: an inactive figure does not collide with itself. -/
theorem colision_contrato_witness :
    ¬ Figura.colision ⟨⟨5, 5⟩, (0, 0, 0), 20, false⟩
      ⟨⟨5, 5⟩, (0, 0, 0), 20, false⟩ :=
  (colision_contrato.2.2.1 ⟨⟨5, 5⟩, (0, 0, 0), 20, false⟩
    ⟨⟨5, 5⟩, (0, 0, 0), 20, false⟩ rfl).2.2

/-! ### Enemigo lemmas -/

/-- The per-frame enemy update never touches hit points, activity,
maximum hit points or the target flag. -/
theorem Enemigo.actualizarCore_preserva (w h : ℤ) (o : Figura) (e : Enemigo)
    (dt : ℝ) :
    (Enemigo.actualizarCore w h o e dt).vida = e.vida ∧
    (Enemigo.actualizarCore w h o e dt).vida_maxima = e.vida_maxima ∧
    (Enemigo.actualizarCore w h o e dt).fig.activo = e.fig.activo := by
  unfold Enemigo.actualizarCore Enemigo.perseguirObjetivo
    Enemigo.actualizarInvulnerabilidad Figura.mantenerEnPantalla
  split_ifs <;> simp [apply_ite]

/-- Python `recibir_dano` preserves the hit-point invariant. -/
theorem Enemigo.recibirDano_invariante (e : Enemigo)
    (h : Enemigo.invariante e) : Enemigo.invariante (Enemigo.recibirDano e).2 := by
  obtain ⟨h0, hmax, hact⟩ := h
  unfold Enemigo.invariante Enemigo.recibirDano
  split_ifs with h1 h2
  · exact ⟨by simp, by simp; omega, fun _ => by simp⟩
  · refine ⟨by simp; omega, by simp; omega, fun hz => ?_⟩
    simp at hz
    exact absurd hz (by omega)
  · exact ⟨h0, hmax, hact⟩

/-! ### C4 -/

/-- C4: `recibir_dano` returns `False` and changes nothing while the
enemy is invulnerable; otherwise it returns `True` (killing hit
included), loses exactly one hit point, arms 0.5 s of invulnerability,
and on the killing hit deactivates the enemy and clamps the hit points
at 0; consequently along any sequence of damage and update calls the hit
points stay within `[0, vida_maxima]` and reaching 0 forces inactivity. -/
theorem recibir_dano_contrato :
    (∀ e : Enemigo, 0 < e.tiempo_invulnerable →
      Enemigo.recibirDano e = (false, e)) ∧
    (∀ e : Enemigo, e.tiempo_invulnerable ≤ 0 →
      (Enemigo.recibirDano e).1 = true ∧
      (Enemigo.recibirDano e).2.tiempo_invulnerable = 0.5 ∧
      ((Enemigo.recibirDano e).2.vida =
        if e.vida - 1 ≤ 0 then 0 else e.vida - 1) ∧
      ((Enemigo.recibirDano e).2.fig.activo =
        if e.vida - 1 ≤ 0 then false else e.fig.activo) ∧
      (1 ≤ e.vida → (Enemigo.recibirDano e).2.vida = e.vida - 1)) ∧
    (∀ (e : Enemigo) (evs : List EnemigoEvento),
      Enemigo.invariante e → Enemigo.invariante (Enemigo.correr e evs)) := by
  refine ⟨?_, ?_, ?_⟩
  · intro e h
    unfold Enemigo.recibirDano
    rw [if_neg (by linarith)]
  · intro e h
    unfold Enemigo.recibirDano
    rw [if_pos h]
    split_ifs with h2
    · exact ⟨rfl, rfl, by simp, by simp, fun h3 => by simp; omega⟩
    · exact ⟨rfl, rfl, by simp, by simp, fun h3 => rfl⟩
  · intro e evs
    induction evs generalizing e with
    | nil => exact fun h => h
    | cons ev evs ih =>
      intro h
      cases ev with
      | dano => exact ih _ (Enemigo.recibirDano_invariante e h)
      | paso w hh o dt =>
        refine ih _ ?_
        obtain ⟨p1, p2, p3⟩ := Enemigo.actualizarCore_preserva w hh o e dt
        obtain ⟨h0, hmax, hact⟩ := h
        exact ⟨by omega, by omega, fun hz => by rw [p3]; exact hact (by omega)⟩

/-- C4 witness: a freshly spawned enemy is not invulnerable, so the first
hit lands, returns `True` and leaves 2 of 3 hit points. -/
theorem recibir_dano_contrato_witness :
    (Enemigo.recibirDano (Enemigo.nuevo 0 0 0 (255, 0, 0) 20)).1 = true ∧
    (Enemigo.recibirDano (Enemigo.nuevo 0 0 0 (255, 0, 0) 20)).2.vida = 2 := by
  have h := recibir_dano_contrato.2.1 (Enemigo.nuevo 0 0 0 (255, 0, 0) 20)
    (by simp [Enemigo.nuevo])
  refine ⟨h.1, ?_⟩
  have h5 := h.2.2.2.2 (by simp [Enemigo.nuevo])
  rw [h5]
  simp [Enemigo.nuevo]

/-! ### C6 -/

/-- C6 (amended): the invulnerability timer is decremented by `dt`
exactly when it is positive and is left unchanged otherwise, both in
`_actualizar_invulnerabilidad` and across the whole per-frame update of
an active enemy; no lower clamp is applied, so the timer may end
negative. -/
theorem invulnerabilidad_decrece_solo_si_positiva :
    (∀ (e : Enemigo) (dt : ℝ), 0 < e.tiempo_invulnerable →
      (e.actualizarInvulnerabilidad dt).tiempo_invulnerable =
        e.tiempo_invulnerable - dt) ∧
    (∀ (e : Enemigo) (dt : ℝ), e.tiempo_invulnerable ≤ 0 →
      (e.actualizarInvulnerabilidad dt).tiempo_invulnerable =
        e.tiempo_invulnerable) ∧
    (∀ (w h : ℤ) (o : Figura) (e : Enemigo) (dt : ℝ), e.fig.activo = true →
      (Enemigo.actualizarCore w h o e dt).tiempo_invulnerable =
        (if 0 < e.tiempo_invulnerable then e.tiempo_invulnerable - dt
         else e.tiempo_invulnerable)) := by
  have hbase : ∀ (e : Enemigo) (dt : ℝ),
      (e.actualizarInvulnerabilidad dt).tiempo_invulnerable =
        (if 0 < e.tiempo_invulnerable then e.tiempo_invulnerable - dt
         else e.tiempo_invulnerable) := by
    intro e dt
    unfold Enemigo.actualizarInvulnerabilidad
    split_ifs <;> simp
  refine ⟨fun e dt h => by rw [hbase, if_pos h],
          fun e dt h => by rw [hbase, if_neg (not_lt.mpr h)],
          fun w h o e dt hact => ?_⟩
  unfold Enemigo.actualizarCore
  rw [if_pos hact]
  have hp : ∀ (o : Figura) (e1 : Enemigo) (dt : ℝ),
      (Enemigo.perseguirObjetivo o e1 dt).tiempo_invulnerable =
        e1.tiempo_invulnerable := by
    intro o e1 dt
    unfold Enemigo.perseguirObjetivo
    split_ifs <;> simp [apply_ite]
  simp only [Figura.mantenerEnPantalla, hp, hbase]

/-- C6 witness for the amended theorem: an enemy with an expired timer
keeps it unchanged across `_actualizar_invulnerabilidad`. -/
theorem invulnerabilidad_decrece_solo_si_positiva_witness :
    ((Enemigo.nuevo 2 0 0 (255, 0, 0) 20).actualizarInvulnerabilidad
      1).tiempo_invulnerable =
      (Enemigo.nuevo 2 0 0 (255, 0, 0) 20).tiempo_invulnerable :=
  invulnerabilidad_decrece_solo_si_positiva.2.1 _ 1 (by simp [Enemigo.nuevo])

/-- C6 counterexample to the claimed invariant
`invulnerabilityRemaining >= 0`: an active enemy with 0.5 s of
invulnerability updated with `dt = 1` ends the frame at `-0.5`. -/
theorem invulnerabilidad_negativa_tras_actualizar :
    (Enemigo.actualizarCore 800 600 ⟨⟨0, 0⟩, (0, 255, 0), 20, true⟩
        enemigoGolpeado 1).tiempo_invulnerable = -(1 / 2 : ℝ) ∧
    ¬ (0 ≤ (Enemigo.actualizarCore 800 600 ⟨⟨0, 0⟩, (0, 255, 0), 20, true⟩
        enemigoGolpeado 1).tiempo_invulnerable) := by
  have h1 : (Enemigo.actualizarCore 800 600 ⟨⟨0, 0⟩, (0, 255, 0), 20, true⟩
      enemigoGolpeado 1).tiempo_invulnerable = -(1 / 2 : ℝ) := by
    unfold Enemigo.actualizarCore Enemigo.perseguirObjetivo
      Enemigo.actualizarInvulnerabilidad Figura.mantenerEnPantalla
    norm_num [enemigoGolpeado, Enemigo.nuevo, apply_ite]
  exact ⟨h1, by rw [h1]; norm_num⟩

/-! ### C7 -/

/-- C7 (amended): the direction of a projectile is computed once at fire
time as `normalizar` of the vector from the firer to the target; it has
magnitude 1 whenever that vector is nonzero (when the firer sits exactly
on the target it is the zero vector instead), and no projectile update
ever mutates it. -/
theorem direccion_unitaria_contrato :
    (∀ v : Vector2D, ¬ (v.x = 0 ∧ v.y = 0) → (v.normalizar).magnitud = 1) ∧
    (∀ (j : Jugador) (t : ℝ × ℝ), ¬ j.ultimo_disparo < j.cooldown_disparo →
      (Jugador.disparar j t).2.proyectiles =
        j.proyectiles ++ [Proyectil.nuevo j.fig.posicion.x j.fig.posicion.y
          ⟨t.1 - j.fig.posicion.x, t.2 - j.fig.posicion.y⟩ 300]) ∧
    (∀ (x y : ℝ) (d : Vector2D) (v : ℝ),
      (Proyectil.nuevo x y d v).direccion = d.normalizar) ∧
    (∀ (w h : ℤ) (p : Proyectil) (dt : ℝ),
      (Proyectil.actualizarCore w h p dt).direccion = p.direccion) := by
  refine ⟨?_, ?_, ?_, ?_⟩
  · intro v hv
    have hm : 0 < v.magnitud := Vector2D.magnitud_pos v hv
    have hm2 : 0 < v.x ^ 2 + v.y ^ 2 := by
      have := hm
      unfold Vector2D.magnitud at this
      by_contra hc
      rw [Real.sqrt_eq_zero_of_nonpos (not_lt.mp hc)] at this
      exact lt_irrefl 0 this
    unfold Vector2D.normalizar
    rw [if_pos hm]
    unfold Vector2D.magnitud at *
    simp only
    rw [div_pow, div_pow, div_add_div_same, Real.sq_sqrt hm2.le,
      div_self (ne_of_gt hm2), Real.sqrt_one]
  · intro j t h
    unfold Jugador.disparar
    rw [if_neg h]
  · intro x y d v
    rfl
  · intro w h p dt
    unfold Proyectil.actualizarCore Proyectil.verificarDesactivacion
    split_ifs <;> simp [apply_ite]

/-- C7 witness for the amended theorem: the direction toward a target
offset by `(3, 4)` is a unit vector. -/
theorem direccion_unitaria_contrato_witness :
    (Vector2D.normalizar ⟨3, 4⟩).magnitud = 1 :=
  direccion_unitaria_contrato.1 ⟨3, 4⟩ (by norm_num)

/-- C7 counterexample to the claim as stated: a ready player firing at
its own position creates a projectile whose direction has magnitude 0,
not 1. -/
theorem direccion_no_unitaria_en_disparo_degenerado :
    (Jugador.disparar jugadorListo (100, 100)).1 = true ∧
    ((Jugador.disparar jugadorListo (100, 100)).2.proyectiles.map
      (fun p => p.direccion.magnitud)) = [0] ∧
    (0 : ℝ) ≠ 1 := by
  have h00 : (Vector2D.mk 0 0).magnitud = 0 := by
    norm_num [Vector2D.magnitud]
  have hn : (Vector2D.mk 0 0).normalizar = ⟨0, 0⟩ := by
    unfold Vector2D.normalizar
    rw [h00]
    norm_num
  have hcond : ¬ jugadorListo.ultimo_disparo < jugadorListo.cooldown_disparo := by
    norm_num [jugadorListo, Jugador.nuevo]
  refine ⟨?_, ?_, by norm_num⟩
  · unfold Jugador.disparar
    rw [if_neg hcond]
  · unfold Jugador.disparar
    rw [if_neg hcond]
    simp only [jugadorListo, Jugador.nuevo, Proyectil.nuevo]
    norm_num [hn, h00]

/-! ### Jugador lemmas -/

/-- Python `disparar` during cooldown is a pure no-op returning `False`. -/
theorem Jugador.disparar_noop (j : Jugador) (t : ℝ × ℝ)
    (h : j.ultimo_disparo < j.cooldown_disparo) :
    Jugador.disparar j t = (false, j) := by
  unfold Jugador.disparar
  rw [if_pos h]

/-- Fields of the player after one update body: the cooldown constant is
untouched, the shot timer either stays (inactive player) or grows by
`dt`, and an empty projectile list stays empty. -/
theorem Jugador.actualizarCore_conserva (w h : ℤ) (m : Vector2D) (j : Jugador)
    (dt : ℝ) :
    (Jugador.actualizarCore w h m j dt).cooldown_disparo =
      j.cooldown_disparo ∧
    ((Jugador.actualizarCore w h m j dt).ultimo_disparo = j.ultimo_disparo ∨
      (Jugador.actualizarCore w h m j dt).ultimo_disparo =
        j.ultimo_disparo + dt) ∧
    (j.proyectiles = [] →
      (Jugador.actualizarCore w h m j dt).proyectiles = []) := by
  unfold Jugador.actualizarCore Jugador.actualizarProyectiles
    Jugador.moverHaciaMouse
  split_ifs with hact
  · exact ⟨by simp, Or.inr (by simp), fun hp => by simp [hp]⟩
  · exact ⟨rfl, Or.inl rfl, fun hp => hp⟩

/-- The total update time of a positive-step trace is nonnegative. -/
theorem sumaDt_nonneg :
    ∀ evs : List JugadorEvento, dtsPositivos evs → 0 ≤ sumaDt evs := by
  intro evs
  induction evs with
  | nil => intro _; simp [sumaDt]
  | cons ev evs ih =>
    cases ev with
    | paso m dt =>
      rintro ⟨h1, h2⟩
      have := ih h2
      simp only [sumaDt]
      linarith
    | disparo t =>
      intro hd
      simp only [sumaDt]
      exact ih hd

/-- Along any positive-step trace whose total update time keeps the shot
timer strictly below the cooldown, no fire attempt succeeds and no
projectile is ever created. -/
theorem Jugador.correr_sin_disparos (w h : ℤ) :
    ∀ (evs : List JugadorEvento) (j : Jugador) (n : ℕ),
      dtsPositivos evs → j.proyectiles = [] →
      j.ultimo_disparo + sumaDt evs < j.cooldown_disparo →
      (Jugador.correr w h j n evs).2 = n ∧
      (Jugador.correr w h j n evs).1.proyectiles = [] := by
  intro evs
  induction evs with
  | nil => exact fun j n _ hp _ => ⟨rfl, hp⟩
  | cons ev evs ih =>
    intro j n hdts hp hsum
    cases ev with
    | paso m dt =>
      obtain ⟨hdt, hdts2⟩ := hdts
      obtain ⟨hc, hu, hps⟩ := Jugador.actualizarCore_conserva w h m j dt
      simp only [Jugador.correr]
      refine ih _ n hdts2 (hps hp) ?_
      rw [hc]
      simp only [sumaDt] at hsum
      rcases hu with hu | hu <;> rw [hu] <;> linarith
    | disparo t =>
      have hnn : 0 ≤ sumaDt evs := sumaDt_nonneg evs hdts
      simp only [sumaDt] at hsum
      have hfail : Jugador.disparar j t = (false, j) :=
        Jugador.disparar_noop j t (by linarith)
      simp only [Jugador.correr, hfail]
      exact ih j n hdts hp hsum

/-! ### C9 -/

/-- C9: `disparar` returns `False` without any state change while the
shot timer is below the cooldown; otherwise it returns `True`, appends
exactly one projectile spawned at the player position and aimed at the
target, and resets the shot timer to 0. -/
theorem disparar_contrato :
    (∀ (j : Jugador) (t : ℝ × ℝ), j.ultimo_disparo < j.cooldown_disparo →
      Jugador.disparar j t = (false, j)) ∧
    (∀ (j : Jugador) (t : ℝ × ℝ), ¬ j.ultimo_disparo < j.cooldown_disparo →
      (Jugador.disparar j t).1 = true ∧
      (Jugador.disparar j t).2.ultimo_disparo = 0 ∧
      (Jugador.disparar j t).2.fig = j.fig ∧
      (Jugador.disparar j t).2.cooldown_disparo = j.cooldown_disparo ∧
      (Jugador.disparar j t).2.proyectiles =
        j.proyectiles ++ [Proyectil.nuevo j.fig.posicion.x j.fig.posicion.y
          ⟨t.1 - j.fig.posicion.x, t.2 - j.fig.posicion.y⟩ 300]) ∧
    (∀ (x y : ℝ) (d : Vector2D) (v : ℝ),
      (Proyectil.nuevo x y d v).fig.posicion = ⟨x, y⟩ ∧
      (Proyectil.nuevo x y d v).direccion = d.normalizar ∧
      (Proyectil.nuevo x y d v).fig.activo = true ∧
      (Proyectil.nuevo x y d v).velocidad = v ∧
      (Proyectil.nuevo x y d v).tiempo_vida = 2) := by
  refine ⟨Jugador.disparar_noop, fun j t h => ?_, fun x y d v =>
    ⟨rfl, rfl, rfl, rfl, rfl⟩⟩
  unfold Jugador.disparar
  rw [if_neg h]
  exact ⟨rfl, rfl, rfl, rfl, rfl⟩

/-- C9 witness: a fresh player is on cooldown, so firing is refused with
no state change. -/
theorem disparar_contrato_witness :
    Jugador.disparar (Jugador.nuevo 0 0 (0, 255, 0)) (5, 5) =
      (false, Jugador.nuevo 0 0 (0, 255, 0)) :=
  disparar_contrato.1 (Jugador.nuevo 0 0 (0, 255, 0)) (5, 5)
    (by norm_num [Jugador.nuevo])

/-! ### C10 -/

/-- C10: a freshly built player starts with `ultimo_disparo = 0`, below
the 0.3 s cooldown, and along any sequence of updates and fire attempts
whose accumulated update time stays below 0.3 s every fire attempt
returns `False` and the projectile list stays empty. -/
theorem jugador_nuevo_no_dispara :
    (∀ (x y : ℝ) (c : Color), (Jugador.nuevo x y c).ultimo_disparo = 0 ∧
      (Jugador.nuevo x y c).cooldown_disparo = 0.3) ∧
    (∀ (w h : ℤ) (x y : ℝ) (c : Color) (evs : List JugadorEvento),
      dtsPositivos evs → sumaDt evs < 0.3 →
      (Jugador.correr w h (Jugador.nuevo x y c) 0 evs).2 = 0 ∧
      (Jugador.correr w h (Jugador.nuevo x y c) 0 evs).1.proyectiles = []) := by
  refine ⟨fun x y c => ⟨rfl, rfl⟩, fun w h x y c evs hdts hsum => ?_⟩
  refine Jugador.correr_sin_disparos w h evs (Jugador.nuevo x y c) 0 hdts rfl ?_
  show (0 : ℝ) + sumaDt evs < 0.3
  linarith

/-- C10 witness: one 0.1 s update then a fire attempt: the attempt fails
and no projectile exists. -/
theorem jugador_nuevo_no_dispara_witness :
    (Jugador.correr 800 600 (Jugador.nuevo 0 0 (0, 255, 0)) 0
      [JugadorEvento.paso ⟨0, 0⟩ 0.1, JugadorEvento.disparo (5, 5)]).2 = 0 :=
  (jugador_nuevo_no_dispara.2 800 600 0 0 (0, 255, 0)
    [JugadorEvento.paso ⟨0, 0⟩ 0.1, JugadorEvento.disparo (5, 5)]
    (by norm_num [dtsPositivos]) (by norm_num [sumaDt])).1

/-! ### ControlJuego lemmas -/

/-- A respawn only touches the enemy collection, the primary reference
and the id supply. -/
theorem ControlJuego.respawnearEnemigo_campos (x y : ℝ) (r : ℤ)
    (s : ControlJuego) :
    (ControlJuego.respawnearEnemigo x y r s).jugador = s.jugador ∧
    (ControlJuego.respawnearEnemigo x y r s).puntos = s.puntos ∧
    (ControlJuego.respawnearEnemigo x y r s).jugando = s.jugando ∧
    (ControlJuego.respawnearEnemigo x y r s).cooldown_dano = s.cooldown_dano := by
  unfold ControlJuego.respawnearEnemigo
  exact ⟨rfl, rfl, rfl, rfl⟩

/-- Step 5 does not touch the player, the score, the session flag or the
damage cooldown constant. -/
theorem ControlJuego.paso5_campos (a : (ℝ × ℝ) × ℤ) (s : ControlJuego) :
    (ControlJuego.paso5 a s).jugador = s.jugador ∧
    (ControlJuego.paso5 a s).puntos = s.puntos ∧
    (ControlJuego.paso5 a s).jugando = s.jugando ∧
    (ControlJuego.paso5 a s).cooldown_dano = s.cooldown_dano := by
  unfold ControlJuego.paso5 ControlJuego.respawnearEnemigo
  split
  · split_ifs <;> exact ⟨rfl, rfl, rfl, rfl⟩
  · exact ⟨rfl, rfl, rfl, rfl⟩

/-- Step 6 clamps the score at 0 and ends the session exactly when the
score is spent; nothing else changes. -/
theorem ControlJuego.paso6_campos (s : ControlJuego) :
    (ControlJuego.paso6 s).jugador = s.jugador ∧
    (ControlJuego.paso6 s).puntos = (if s.puntos ≤ 0 then 0 else s.puntos) ∧
    (ControlJuego.paso6 s).jugando =
      (if s.puntos ≤ 0 then false else s.jugando) ∧
    (ControlJuego.paso6 s).cooldown_dano = s.cooldown_dano := by
  unfold ControlJuego.paso6
  split_ifs <;> exact ⟨rfl, rfl, rfl, rfl⟩

/-- Step 7 does not touch the player, the score, the session flag or the
damage cooldown constant. -/
theorem ControlJuego.paso7_campos (s : ControlJuego) :
    (ControlJuego.paso7 s).jugador = s.jugador ∧
    (ControlJuego.paso7 s).puntos = s.puntos ∧
    (ControlJuego.paso7 s).jugando = s.jugando ∧
    (ControlJuego.paso7 s).cooldown_dano = s.cooldown_dano := by
  unfold ControlJuego.paso7
  exact ⟨rfl, rfl, rfl, rfl⟩

/-- Step 8 does not touch the player, the score, the session flag or the
damage cooldown constant. -/
theorem ControlJuego.paso8_campos (b : (ℝ × ℝ) × ℤ) (s : ControlJuego)
    (dt : ℝ) :
    (ControlJuego.paso8 b s dt).jugador = s.jugador ∧
    (ControlJuego.paso8 b s dt).puntos = s.puntos ∧
    (ControlJuego.paso8 b s dt).jugando = s.jugando ∧
    (ControlJuego.paso8 b s dt).cooldown_dano = s.cooldown_dano := by
  unfold ControlJuego.paso8 ControlJuego.respawnearEnemigo
  split_ifs <;> exact ⟨rfl, rfl, rfl, rfl⟩

/-- Steps 1-4 leave the session flag, the damage cooldown constant and
everything of the player except its projectile list unchanged; the
projectile list becomes the output of the projectile passes. -/
theorem ControlJuego.trasColisiones_campos (s : ControlJuego) (dt : ℝ) :
    (ControlJuego.trasColisiones s dt).jugador =
      { s.jugador with proyectiles := (ControlJuego.pasoProyectiles s dt).2 } ∧
    (ControlJuego.trasColisiones s dt).jugando = s.jugando ∧
    (ControlJuego.trasColisiones s dt).cooldown_dano = s.cooldown_dano ∧
    (ControlJuego.trasColisiones s dt).enemigos =
      (ControlJuego.pasoProyectiles s dt).1.2 := by
  unfold ControlJuego.trasColisiones
  exact ⟨rfl, rfl, rfl, rfl⟩

/-- The whole update body: the player is exactly the player left by the
collision phase, and the score/flag are the step-6 clamp of the score
left by the collision phase. -/
theorem ControlJuego.actualizarCore_campos (a b : (ℝ × ℝ) × ℤ)
    (s : ControlJuego) (dt : ℝ) :
    (ControlJuego.actualizarCore a b s dt).jugador =
      (ControlJuego.trasColisiones s dt).jugador ∧
    (ControlJuego.actualizarCore a b s dt).puntos =
      (if (ControlJuego.trasColisiones s dt).puntos ≤ 0 then 0
       else (ControlJuego.trasColisiones s dt).puntos) ∧
    (ControlJuego.actualizarCore a b s dt).jugando =
      (if (ControlJuego.trasColisiones s dt).puntos ≤ 0 then false
       else (ControlJuego.trasColisiones s dt).jugando) ∧
    (ControlJuego.actualizarCore a b s dt).cooldown_dano = s.cooldown_dano := by
  unfold ControlJuego.actualizarCore ControlJuego.pasoFinal
  obtain ⟨j8, p8, g8, c8⟩ := ControlJuego.paso8_campos b
    (ControlJuego.paso7 (ControlJuego.paso6
      (ControlJuego.paso5 a (ControlJuego.trasColisiones s dt)))) dt
  obtain ⟨j7, p7, g7, c7⟩ := ControlJuego.paso7_campos
    (ControlJuego.paso6 (ControlJuego.paso5 a (ControlJuego.trasColisiones s dt)))
  obtain ⟨j6, p6, g6, c6⟩ := ControlJuego.paso6_campos
    (ControlJuego.paso5 a (ControlJuego.trasColisiones s dt))
  obtain ⟨j5, p5, g5, c5⟩ := ControlJuego.paso5_campos a
    (ControlJuego.trasColisiones s dt)
  obtain ⟨jt, gt, ct, et⟩ := ControlJuego.trasColisiones_campos s dt
  refine ⟨?_, ?_, ?_, ?_⟩
  · rw [j8, j7, j6, j5]
  · rw [p8, p7, p6, p5]
  · rw [g8, g7, g6, g5, p5]
  · rw [c8, c7, c6, c5, ct]

/-- One helper-pass iteration only ever touches the activity flag of the
projectile, and keeps the enemy-list length. -/
theorem verColProy1_basico (i : ℕ) (st : ℤ × List Enemigo) (p : Proyectil) :
    (verColProy1 i st p).2.tiempo_vida = p.tiempo_vida ∧
    (verColProy1 i st p).1.2.length = st.2.length := by
  unfold verColProy1 reemplazarEnemigo
  split
  · split_ifs <;> simp
  · exact ⟨rfl, rfl⟩

/-- The helper pass keeps the lifetimes (hence number and order) of the
projectiles and the length of the enemy list. -/
theorem verColProyLista_basico (i : ℕ) :
    ∀ (ps : List Proyectil) (st : ℤ × List Enemigo),
      (verColProyLista i st ps).2.map Proyectil.tiempo_vida =
        ps.map Proyectil.tiempo_vida ∧
      (verColProyLista i st ps).1.2.length = st.2.length := by
  intro ps
  induction ps with
  | nil => exact fun st => ⟨rfl, rfl⟩
  | cons p ps ih =>
    intro st
    obtain ⟨h1, h2⟩ := verColProy1_basico i st p
    obtain ⟨h3, h4⟩ := ih (verColProy1 i st p).1
    simp only [verColProyLista, List.map_cons]
    exact ⟨by rw [h1, h3], by rw [h4, h2]⟩

/-- The inlined loop over the enemies keeps the projectile lifetime and
the enemy-list length. -/
theorem colisionProyEnemigos_basico :
    ∀ (ens : List Enemigo) (st : ℤ × Proyectil),
      (colisionProyEnemigos st ens).1.2.tiempo_vida = st.2.tiempo_vida ∧
      (colisionProyEnemigos st ens).2.length = ens.length := by
  intro ens
  induction ens with
  | nil => exact fun st => ⟨rfl, rfl⟩
  | cons e es ih =>
    intro st
    obtain ⟨q, p⟩ := st
    simp only [colisionProyEnemigos, List.length_cons]
    obtain ⟨h1, h2⟩ := ih (((if Figura.colision p.fig e.fig then
      ((if (Enemigo.recibirDano e).1 then q + 2 else q), (Enemigo.recibirDano e).2)
      else (q, e)).1), { p with fig := { p.fig with activo := false } })
    constructor
    · rw [h1]
    · rw [h2]

/-- The inlined outer loop keeps the lifetimes (hence number and order)
of the projectiles. -/
theorem colisionProyLista_mapa :
    ∀ (ps : List Proyectil) (st : ℤ × List Enemigo),
      (colisionProyLista st ps).2.map Proyectil.tiempo_vida =
        ps.map Proyectil.tiempo_vida := by
  intro ps
  induction ps with
  | nil => exact fun st => rfl
  | cons p ps ih =>
    intro st
    obtain ⟨q, ens⟩ := st
    simp only [colisionProyLista, List.map_cons]
    obtain ⟨h1, -⟩ := colisionProyEnemigos_basico ens (q, p)
    rw [h1, ih]

/-- Inside the inlined loop the projectile is deactivated after the very
first enemy iteration, whether or not any collision happened. -/
theorem colisionProyEnemigos_desactiva :
    ∀ (ens : List Enemigo) (st : ℤ × Proyectil), ens ≠ [] →
      (colisionProyEnemigos st ens).1.2.fig.activo = false := by
  intro ens
  induction ens with
  | nil => exact fun st h => absurd rfl h
  | cons e es ih =>
    intro st _
    obtain ⟨q, p⟩ := st
    simp only [colisionProyEnemigos]
    cases es with
    | nil => rfl
    | cons e2 es2 => exact ih _ (by simp)

/-- Whenever the enemy list is nonempty, every projectile that went
through the inlined outer loop ends up inactive. -/
theorem colisionProyLista_desactiva :
    ∀ (ps : List Proyectil) (st : ℤ × List Enemigo), st.2 ≠ [] →
      ∀ r ∈ (colisionProyLista st ps).2, r.fig.activo = false := by
  intro ps
  induction ps with
  | nil =>
    intro st h r hr
    simp only [colisionProyLista, List.not_mem_nil] at hr
  | cons p ps ih =>
    intro st h r hr
    obtain ⟨q, ens⟩ := st
    simp only [colisionProyLista] at hr
    rcases List.mem_cons.mp hr with hr | hr
    · subst hr
      exact colisionProyEnemigos_desactiva ens (q, p) h
    · refine ih _ ?_ r hr
      obtain ⟨-, hlen⟩ := colisionProyEnemigos_basico ens (q, p)
      intro hnil
      rw [hnil] at hlen
      simp only [List.length_nil] at hlen
      exact h (List.length_eq_zero.mp hlen.symm)

/-- The inlined outer loop keeps the length of the enemy list. -/
theorem colisionProyLista_longitud :
    ∀ (ps : List Proyectil) (st : ℤ × List Enemigo),
      (colisionProyLista st ps).1.2.length = st.2.length := by
  intro ps
  induction ps with
  | nil => exact fun st => rfl
  | cons p ps ih =>
    intro st
    obtain ⟨q, ens⟩ := st
    simp only [colisionProyLista]
    obtain ⟨-, h2⟩ := colisionProyEnemigos_basico ens (q, p)
    rw [ih, h2]

/-- The complete projectile phase keeps the lifetimes of the projectiles
and the length of the enemy list, and (whenever there is at least one
enemy) leaves every projectile inactive. -/
theorem pasoProyectiles_basico (s : ControlJuego) (dt : ℝ) :
    (ControlJuego.pasoProyectiles s dt).2.map Proyectil.tiempo_vida =
      s.jugador.proyectiles.map Proyectil.tiempo_vida ∧
    (ControlJuego.pasoProyectiles s dt).1.2.length = s.enemigos.length ∧
    (s.enemigos ≠ [] →
      ∀ r ∈ (ControlJuego.pasoProyectiles s dt).2, r.fig.activo = false) := by
  unfold ControlJuego.pasoProyectiles
  obtain ⟨hm, hl⟩ := verColProyLista_basico s.enemigoId s.jugador.proyectiles
    (s.puntos, ControlJuego.enemigosActualizados s dt)
  have hl2 : (ControlJuego.enemigosActualizados s dt).length =
      s.enemigos.length := by
    unfold ControlJuego.enemigosActualizados
    exact List.length_map _ _
  refine ⟨?_, ?_, ?_⟩
  · rw [colisionProyLista_mapa, hm]
  · rw [colisionProyLista_longitud, hl, hl2]
  · intro hne r hr
    refine colisionProyLista_desactiva _ _ ?_ r hr
    intro hnil
    rw [hnil] at hl
    simp only [List.length_nil] at hl
    exact hne (List.length_eq_zero.mp (by rw [← hl2]; exact hl.symm))

/-! ### C1 -/

/-- C1 (code-bug evidence): a running `actualizar` call with `dt > 0`
never executes the player update: the shot timer does not grow by `dt`,
the player does not move toward the cursor, and the owned projectiles
are neither advanced (their lifetimes are untouched) nor purged. -/
theorem jugador_no_actualizado_en_avance
    (spawnA spawnB : (ℝ × ℝ) × ℤ) (s : ControlJuego) (dt : ℝ)
    (hdt : 0 < dt) (hj : s.jugando = true) :
    ControlJuego.actualizar spawnA spawnB s dt =
      some (ControlJuego.actualizarCore spawnA spawnB s dt) ∧
    (ControlJuego.actualizarCore spawnA spawnB s dt).jugador.ultimo_disparo =
      s.jugador.ultimo_disparo ∧
    (ControlJuego.actualizarCore spawnA spawnB s dt).jugador.fig.posicion =
      s.jugador.fig.posicion ∧
    (ControlJuego.actualizarCore spawnA spawnB s dt).jugador.proyectiles.map
      Proyectil.tiempo_vida =
      s.jugador.proyectiles.map Proyectil.tiempo_vida := by
  obtain ⟨hjug, -, -, -⟩ := ControlJuego.actualizarCore_campos spawnA spawnB s dt
  obtain ⟨hjt, -, -, -⟩ := ControlJuego.trasColisiones_campos s dt
  obtain ⟨hmap, -, -⟩ := pasoProyectiles_basico s dt
  refine ⟨?_, ?_, ?_, ?_⟩
  · unfold ControlJuego.actualizar
    rw [if_neg (not_le.mpr hdt), if_pos hj]
  · rw [hjug, hjt]
  · rw [hjug, hjt]
  · rw [hjug, hjt]
    exact hmap

/-- C1 witness: on the freshly initialised 800 × 600 session and a one
second step, the shot timer is identical before and after the advance. -/
theorem jugador_no_actualizado_en_avance_witness :
    (ControlJuego.actualizarCore ((0, 0), 10) ((0, 0), 10)
      (ControlJuego.inicial 800 600) 1).jugador.ultimo_disparo =
      (ControlJuego.inicial 800 600).jugador.ultimo_disparo :=
  (jugador_no_actualizado_en_avance ((0, 0), 10) ((0, 0), 10)
    (ControlJuego.inicial 800 600) 1 (by norm_num) rfl).2.1

/-! ### C2 -/

/-- C2 (code-bug evidence): whenever the enemy list is nonempty, the
projectile passes of `actualizar` deactivate EVERY projectile of the
player, collision or not (the `proyectil.activo = False` of the inlined
loop sits outside the collision check); in contrast, the update of the projectile
itself deactivates it exactly on leaving the expanded screen bounds
or on lifetime expiry. -/
theorem proyectiles_desactivados_incondicionalmente
    (spawnA spawnB : (ℝ × ℝ) × ℤ) (s : ControlJuego) (dt : ℝ)
    (hne : s.enemigos ≠ []) :
    ((ControlJuego.actualizarCore spawnA spawnB s dt).jugador.proyectiles.all
      (fun r => !r.fig.activo)) = true ∧
    (∀ (w h : ℤ) (p : Proyectil) (dtp : ℝ), p.fig.activo = true →
      ((Proyectil.actualizarCore w h p dtp).fig.activo = false ↔
        (((p.fig.posicion.add (p.direccion.mulEscalar (p.velocidad * dtp))).x <
            -(p.fig.radio : ℝ) ∨
          ((w + p.fig.radio : ℤ) : ℝ) <
            (p.fig.posicion.add (p.direccion.mulEscalar (p.velocidad * dtp))).x ∨
          (p.fig.posicion.add (p.direccion.mulEscalar (p.velocidad * dtp))).y <
            -(p.fig.radio : ℝ) ∨
          ((h + p.fig.radio : ℤ) : ℝ) <
            (p.fig.posicion.add (p.direccion.mulEscalar (p.velocidad * dtp))).y) ∨
          p.tiempo_vida - dtp ≤ 0))) := by
  constructor
  · obtain ⟨hjug, -, -, -⟩ := ControlJuego.actualizarCore_campos spawnA spawnB s dt
    obtain ⟨hjt, -, -, -⟩ := ControlJuego.trasColisiones_campos s dt
    obtain ⟨-, -, hdes⟩ := pasoProyectiles_basico s dt
    rw [hjug, hjt]
    rw [List.all_eq_true]
    intro r hr
    have hr2 := hdes hne r hr
    simp [hr2]
  · intro w h p dtp hact
    unfold Proyectil.actualizarCore Proyectil.verificarDesactivacion
    simp only [hact, if_true]
    split_ifs with hd
    · simp only [Int.cast_add, sub_nonpos] at hd
      simp [hd]
    · simp only [Int.cast_add, sub_nonpos] at hd
      simp [hact, hd]

/-- C2 witness: in a session holding one far-away projectile, the
advance leaves that projectile deactivated. -/
theorem proyectiles_desactivados_incondicionalmente_witness :
    ((ControlJuego.actualizarCore ((0, 0), 10) ((0, 0), 10) sesionConProyectil
      1).jugador.proyectiles.all (fun r => !r.fig.activo)) = true :=
  (proyectiles_desactivados_incondicionalmente ((0, 0), 10) ((0, 0), 10)
    sesionConProyectil 1
    (by simp [sesionConProyectil, ControlJuego.inicial])).1

/-- While the elapsed-damage timer is below the cooldown, the inlined
player-enemy loop changes nothing. -/
theorem colisionJugadorEnemigos_sin_cd (f : Figura) (cd : ℝ) :
    ∀ (ens : List Enemigo) (q : ℤ) (t : ℝ), t < cd →
      colisionJugadorEnemigos f cd (q, t) ens = (q, t) := by
  intro ens
  induction ens with
  | nil => exact fun q t _ => rfl
  | cons e es ih =>
    intro q t ht
    simp only [colisionJugadorEnemigos]
    rw [if_neg (by rintro ⟨-, h2⟩; exact absurd h2 (not_le.mpr ht))]
    exact ih q t ht

/-- With the cooldown elapsed, the inlined player-enemy loop deducts
exactly one pair of points and resets the timer when some enemy touches
the player, and changes nothing otherwise. -/
theorem colisionJugadorEnemigos_con_cd (f : Figura) (cd : ℝ) (hcd : 0 < cd) :
    ∀ (ens : List Enemigo) (q : ℤ) (t : ℝ), cd ≤ t →
      ((∃ e ∈ ens, Figura.colision f e.fig) →
        colisionJugadorEnemigos f cd (q, t) ens = (q - 2, 0)) ∧
      ((¬ ∃ e ∈ ens, Figura.colision f e.fig) →
        colisionJugadorEnemigos f cd (q, t) ens = (q, t)) := by
  intro ens
  induction ens with
  | nil =>
    intro q t ht
    exact ⟨fun hex => by simp at hex, fun _ => rfl⟩
  | cons e es ih =>
    intro q t ht
    by_cases hc : Figura.colision f e.fig
    · have hstep : colisionJugadorEnemigos f cd (q, t) (e :: es) =
          colisionJugadorEnemigos f cd (q - 2, 0) es := by
        simp only [colisionJugadorEnemigos]
        rw [if_pos ⟨hc, ht⟩]
      constructor
      · intro _
        rw [hstep]
        exact colisionJugadorEnemigos_sin_cd f cd es (q - 2) 0 hcd
      · intro hnex
        exact absurd ⟨e, List.mem_cons_self e es, hc⟩ hnex
    · have hstep : colisionJugadorEnemigos f cd (q, t) (e :: es) =
          colisionJugadorEnemigos f cd (q, t) es := by
        simp only [colisionJugadorEnemigos]
        rw [if_neg (by rintro ⟨h1, -⟩; exact hc h1)]
      constructor
      · rintro ⟨e2, he2, hc2⟩
        rcases List.mem_cons.mp he2 with rfl | he2
        · exact absurd hc2 hc
        · rw [hstep]
          exact (ih q t ht).1 ⟨e2, he2, hc2⟩
      · intro hnex
        rw [hstep]
        refine (ih q t ht).2 ?_
        rintro ⟨e2, he2, hc2⟩
        exact hnex ⟨e2, List.mem_cons_of_mem e he2, hc2⟩

/-! ### C3 -/

/-- C3: the composed player-enemy pass of one advance (the primary-enemy
helper followed by the loop over every enemy) deducts exactly 2 points
and resets the damage timer when the timer has reached the (positive)
cooldown and some listed enemy touches the player, and changes nothing
otherwise — never two deductions, however many enemies touch; in the
update body the score and timer are exactly the output of that pass, the
cooldown constant is 1.0 s on the initial session and no advance ever
changes it. -/
theorem dano_contacto_una_sola_deduccion :
    (∀ (f : Figura) (i : ℕ) (ens : List Enemigo) (cd : ℝ) (q : ℤ) (t : ℝ),
      0 < cd →
      (((cd ≤ t ∧ ∃ e ∈ ens, Figura.colision f e.fig) →
        colisionJugadorEnemigos f cd
          (verColJugadorEnemigo f (buscarEnemigo ens i) cd q t) ens =
          (q - 2, 0)) ∧
       (¬ (cd ≤ t ∧ ∃ e ∈ ens, Figura.colision f e.fig) →
        colisionJugadorEnemigos f cd
          (verColJugadorEnemigo f (buscarEnemigo ens i) cd q t) ens =
          (q, t)))) ∧
    (∀ (s : ControlJuego) (dt : ℝ),
      (ControlJuego.trasColisiones s dt).puntos =
        (colisionJugadorEnemigos s.jugador.fig s.cooldown_dano
          (verColJugadorEnemigo s.jugador.fig
            (buscarEnemigo (ControlJuego.pasoProyectiles s dt).1.2 s.enemigoId)
            s.cooldown_dano (ControlJuego.pasoProyectiles s dt).1.1
            (s.tiempo_desde_ultimo_dano + dt))
          (ControlJuego.pasoProyectiles s dt).1.2).1 ∧
      (ControlJuego.trasColisiones s dt).tiempo_desde_ultimo_dano =
        (colisionJugadorEnemigos s.jugador.fig s.cooldown_dano
          (verColJugadorEnemigo s.jugador.fig
            (buscarEnemigo (ControlJuego.pasoProyectiles s dt).1.2 s.enemigoId)
            s.cooldown_dano (ControlJuego.pasoProyectiles s dt).1.1
            (s.tiempo_desde_ultimo_dano + dt))
          (ControlJuego.pasoProyectiles s dt).1.2).2) ∧
    (ControlJuego.inicial 800 600).cooldown_dano = 1 ∧
    (∀ (spawnA spawnB : (ℝ × ℝ) × ℤ) (s : ControlJuego) (dt : ℝ),
      (ControlJuego.actualizarCore spawnA spawnB s dt).cooldown_dano =
        s.cooldown_dano) := by
  refine ⟨?_, fun s dt => ⟨rfl, rfl⟩, rfl,
    fun spawnA spawnB s dt =>
      (ControlJuego.actualizarCore_campos spawnA spawnB s dt).2.2.2⟩
  intro f i ens cd q t hcd
  unfold verColJugadorEnemigo
  cases hb : buscarEnemigo ens i with
  | none =>
    constructor
    · rintro ⟨ht, hex⟩
      exact (colisionJugadorEnemigos_con_cd f cd hcd ens q t ht).1 hex
    · intro hn
      by_cases ht : cd ≤ t
      · refine (colisionJugadorEnemigos_con_cd f cd hcd ens q t ht).2 ?_
        intro hex
        exact hn ⟨ht, hex⟩
      · exact colisionJugadorEnemigos_sin_cd f cd ens q t (not_le.mp ht)
  | some prim =>
    have hmem : prim ∈ ens := List.mem_of_find?_eq_some hb
    dsimp only
    by_cases hcol : Figura.colision f prim.fig ∧ cd ≤ t
    · rw [if_pos hcol]
      constructor
      · intro _
        exact colisionJugadorEnemigos_sin_cd f cd ens (q - 2) 0 hcd
      · intro hn
        exact absurd ⟨hcol.2, prim, hmem, hcol.1⟩ hn
    · rw [if_neg hcol]
      constructor
      · rintro ⟨ht, hex⟩
        exact (colisionJugadorEnemigos_con_cd f cd hcd ens q t ht).1 hex
      · intro hn
        by_cases ht : cd ≤ t
        · refine (colisionJugadorEnemigos_con_cd f cd hcd ens q t ht).2 ?_
          intro hex
          exact hn ⟨ht, hex⟩
        · exact colisionJugadorEnemigos_sin_cd f cd ens q t (not_le.mp ht)

/-- C3 witness: with the cooldown not yet elapsed nothing changes, on
concrete inputs. -/
theorem dano_contacto_una_sola_deduccion_witness :
    colisionJugadorEnemigos ⟨⟨0, 0⟩, (0, 255, 0), 20, true⟩ 1
      (verColJugadorEnemigo ⟨⟨0, 0⟩, (0, 255, 0), 20, true⟩
        (buscarEnemigo [] 0) 1 5 0) [] = (5, 0) :=
  ((dano_contacto_una_sola_deduccion.1 ⟨⟨0, 0⟩, (0, 255, 0), 20, true⟩ 0 []
    1 5 0 (by norm_num)).2
    (by rintro ⟨h1, -⟩; norm_num at h1))

/-! ### C5 -/

/-- C5: the session starts with 10 points; `actualizar` raises on
`dt <= 0` whether or not the session runs, is a complete no-op once the
session has ended, and otherwise ends the frame with a nonnegative score
that is zero exactly when the running flag flipped to false during this
advance. -/
theorem puntaje_inicial_piso_y_fin :
    (ControlJuego.inicial 800 600).puntos = 10 ∧
    (∀ (spawnA spawnB : (ℝ × ℝ) × ℤ) (s : ControlJuego) (dt : ℝ),
      (dt ≤ 0 → ControlJuego.actualizar spawnA spawnB s dt = none) ∧
      (0 < dt → s.jugando = false →
        ControlJuego.actualizar spawnA spawnB s dt = some s) ∧
      (0 < dt → s.jugando = true →
        ControlJuego.actualizar spawnA spawnB s dt =
          some (ControlJuego.actualizarCore spawnA spawnB s dt) ∧
        0 ≤ (ControlJuego.actualizarCore spawnA spawnB s dt).puntos ∧
        ((ControlJuego.actualizarCore spawnA spawnB s dt).jugando = false ↔
          (ControlJuego.actualizarCore spawnA spawnB s dt).puntos = 0))) := by
  refine ⟨rfl, fun spawnA spawnB s dt => ⟨?_, ?_, ?_⟩⟩
  · intro h
    unfold ControlJuego.actualizar
    rw [if_pos h]
  · intro hdt hj
    unfold ControlJuego.actualizar
    rw [if_neg (not_le.mpr hdt), if_neg (by simp [hj])]
  · intro hdt hj
    obtain ⟨-, hp, hg, -⟩ := ControlJuego.actualizarCore_campos spawnA spawnB s dt
    refine ⟨?_, ?_, ?_⟩
    · unfold ControlJuego.actualizar
      rw [if_neg (not_le.mpr hdt), if_pos hj]
    · rw [hp]
      split_ifs with h <;> omega
    · obtain ⟨-, hgt, -, -⟩ := ControlJuego.trasColisiones_campos s dt
      rw [hp, hg, hgt, hj]
      split_ifs with h
      · simp
      · constructor
        · intro hh
          exact absurd hh (by simp)
        · intro hh
          exact absurd hh (by omega)

/-- C5 witness: the first one-second advance of the fresh session leaves
a nonnegative score. -/
theorem puntaje_inicial_piso_y_fin_witness :
    0 ≤ (ControlJuego.actualizarCore ((0, 0), 10) ((0, 0), 10)
      (ControlJuego.inicial 800 600) 1).puntos :=
  ((puntaje_inicial_piso_y_fin.2 ((0, 0), 10) ((0, 0), 10)
    (ControlJuego.inicial 800 600) 1).2.2 (by norm_num) rfl).2.1
